import Mathlib

/-!
Shallow embedding of `pyls/plugins/pylint_lint.py` (class `PylintLinter`,
method `lint`), the diagnostic adapter between a language-server host and
pylint.

Modelling decisions, all taken from the source:
* `PylintLinter.last_diags` is a `collections.defaultdict(list)` mapping
  document path to the most recent diagnostics list.  We model it as an
  insertion-ordered association list; `cacheGetDefault` reproduces
  `defaultdict.__getitem__` (which INSERTS the default on a missing key),
  `cacheSet` reproduces `dict.__setitem__` (update in place, else append).
* The external analyzer (`pylint.lint.Run` writing JSON into a `BytesIO`
  buffer) is a collaborator; its behaviour on the single invocation a saved
  lint performs is a parameter of `lint` (`AnalyzerBehavior`): it may fail
  to launch, or produce a buffer that is empty, malformed JSON, or a parsed
  list of findings.
* Python exceptions (`IndexError` from `document.lines[line]`,
  `NameError`/`UnboundLocalError` from reading the never-assigned loop
  variable `severity`) are modelled with `Except`; `pyGet` reproduces
  Python list indexing including negative indices.
* The loop variable `severity` is only assigned in the five `if`/`elif`
  branches; on an unrecognized `type` Python keeps the binding from the
  previous iteration (or raises `NameError` if there is none).  The fold
  state `prev : Option DiagnosticSeverity` carries that binding.
-/

/-- One record of pylint's JSON output; only the five consumed fields. -/
structure RawFinding where
  line : Int
  column : Nat
  type : String
  symbol : String
  message : String
deriving DecidableEq, Repr

/-- `pyls.lsp.DiagnosticSeverity` members used by the plugin. -/
inductive DiagnosticSeverity where
  | Error
  | Warning
  | Information
  | Hint
deriving DecidableEq, Repr

/-- A (line, character) position; lines may be negative because the plugin
computes `diag['line'] - 1` without a guard. -/
structure Position where
  line : Int
  character : Nat
deriving DecidableEq, Repr

/-- A range as built in `err_range`. -/
structure Range where
  start : Position
  «end» : Position
deriving DecidableEq, Repr

/-- One diagnostic dict appended to `diagnostics`. -/
structure Diagnostic where
  source : String
  range : Range
  message : String
  severity : DiagnosticSeverity
deriving DecidableEq, Repr

/-- The `PylintLinter.last_diags` defaultdict: insertion-ordered map from
document path to diagnostics list. -/
abbrev DiagnosticCache := List (String × List Diagnostic)

/-- Dict lookup (no insertion). -/
def cacheFind : DiagnosticCache → String → Option (List Diagnostic)
  | [], _ => none
  | (k, v) :: rest, q => if k = q then some v else cacheFind rest q

/-- `defaultdict.__getitem__`: returns the stored value, inserting the
default `[]` when the key is missing.  Returns the (value, updated dict)
pair. -/
def cacheGetDefault (c : DiagnosticCache) (k : String) :
    List Diagnostic × DiagnosticCache :=
  match cacheFind c k with
  | some v => (v, c)
  | none => ([], c ++ [(k, [])])

/-- `dict.__setitem__`: overwrite in place when the key exists, else append
a new entry at the end. -/
def cacheSet : DiagnosticCache → String → List Diagnostic → DiagnosticCache
  | [], k, v => [(k, v)]
  | (k0, v0) :: rest, k, v =>
    if k0 = k then (k0, v) :: rest else (k0, v0) :: cacheSet rest k v

/-- Python list indexing `xs[i]`: nonnegative indices from the front,
negative indices from the back, `none` on `IndexError`. -/
def pyGet {α : Type} (xs : List α) (i : Int) : Option α :=
  if 0 ≤ i then xs.get? i.toNat
  else
    let j : Int := (xs.length : Int) + i
    if 0 ≤ j then xs.get? j.toNat else none

/-- The `if`/`elif` chain mapping pylint's `type` string to a severity;
`none` for the unhandled fall-through. -/
def severityFor (t : String) : Option DiagnosticSeverity :=
  if t = "convention" then some DiagnosticSeverity.Information
  else if t = "error" then some DiagnosticSeverity.Error
  else if t = "fatal" then some DiagnosticSeverity.Error
  else if t = "refactor" then some DiagnosticSeverity.Hint
  else if t = "warning" then some DiagnosticSeverity.Warning
  else none

/-- The value of the loop variable `severity` after processing a finding of
type `t`, given its previous binding: an unrecognized type leaves the old
binding in place (Python does not reassign the variable). -/
def resolveSeverity (t : String) (prev : Option DiagnosticSeverity) :
    Option DiagnosticSeverity :=
  match severityFor t with
  | some s => some s
  | none => prev

/-- Python exceptions the `for diag in json.load(...)` loop can raise. -/
inductive PyErr where
  | indexError
  | nameError
deriving DecidableEq, Repr

/-- The body of the `for diag in json.load(bytesStream)` loop: builds the
`diagnostics` list, threading the `severity` binding across iterations. -/
def processFindings (documentLines : List String) :
    Option DiagnosticSeverity → List RawFinding → Except PyErr (List Diagnostic)
  | _, [] => Except.ok []
  | prev, f :: rest =>
    let line : Int := f.line - 1
    match (if documentLines = [] then some 0
           else (pyGet documentLines line).map String.length) with
    | none => Except.error PyErr.indexError
    | some endCol =>
      match resolveSeverity f.type prev with
      | none => Except.error PyErr.nameError
      | some severity =>
        match processFindings documentLines (some severity) rest with
        | Except.error e => Except.error e
        | Except.ok ds =>
          Except.ok
            ({ source := "pylint"
               range :=
                 { start := { line := line, character := f.column }
                   «end» := { line := line, character := endCol } }
               message := "[" ++ f.symbol ++ "] " ++ f.message
               severity := severity } :: ds)

/-- What the single external invocation of a saved lint does: `pylint.lint.Run`
fails to launch, or fills the `BytesIO` buffer with nothing, with malformed
JSON, or with a JSON list of findings. -/
inductive BufferContent where
  | empty
  | malformed
  | valid (findings : List RawFinding)
deriving DecidableEq, Repr

inductive AnalyzerBehavior where
  | launchFailure
  | output (buf : BufferContent)
deriving DecidableEq, Repr

/-- Failures a `lint` call propagates to the caller. -/
inductive LintErr where
  | launchFailure
  | jsonError
  | pyErr (e : PyErr)
deriving DecidableEq, Repr

deriving instance DecidableEq for Except

/-- The observable outcome of one `PylintLinter.lint` call: the returned
list (or propagated failure), the cache afterwards, and the paths passed to
the external analyzer (empty when it was not invoked). -/
structure LintOutcome where
  result : Except LintErr (List Diagnostic)
  cache : DiagnosticCache
  analyzerCalls : List String
deriving DecidableEq, Repr

/-- `path.replace('\\', '/')`: single-character replacement is a character
map. -/
def normalizeBackslashes (s : String) : String :=
  ⟨s.data.map fun c => if c = '\\' then '/' else c⟩

/-- `PylintLinter.lint(document, is_saved)`.  `last_diags` is the cache
before the call; `isWindows` is `sys.platform.startswith('win')`; the
analyzer's behaviour on this invocation is the last parameter. -/
def lint (last_diags : DiagnosticCache) (documentPath : String)
    (documentLines : List String) (isSaved : Bool) (isWindows : Bool)
    (analyzer : AnalyzerBehavior) : LintOutcome :=
  if isSaved = false then
    -- `return cls.last_diags[document.path]` on the defaultdict
    let r := cacheGetDefault last_diags documentPath
    { result := Except.ok r.1, cache := r.2, analyzerCalls := [] }
  else
    let path := if isWindows then normalizeBackslashes documentPath
                else documentPath
    match analyzer with
    | AnalyzerBehavior.launchFailure =>
      { result := Except.error LintErr.launchFailure, cache := last_diags
        analyzerCalls := [path] }
    | AnalyzerBehavior.output BufferContent.empty =>
      -- `if not bytesStream.tell(): cls.last_diags[document.path] = []`
      { result := Except.ok [], cache := cacheSet last_diags documentPath []
        analyzerCalls := [path] }
    | AnalyzerBehavior.output BufferContent.malformed =>
      -- `json.load` raises on malformed input
      { result := Except.error LintErr.jsonError, cache := last_diags
        analyzerCalls := [path] }
    | AnalyzerBehavior.output (BufferContent.valid findings) =>
      match processFindings documentLines none findings with
      | Except.error e =>
        { result := Except.error (LintErr.pyErr e), cache := last_diags
          analyzerCalls := [path] }
      | Except.ok diagnostics =>
        { result := Except.ok diagnostics
          cache := cacheSet last_diags documentPath diagnostics
          analyzerCalls := [path] }

/-! ### Concrete fixtures from the spec's examples -/

/-- A document whose 0-indexed line 4 has length 12. -/
def c2DocumentLines : List String := ["a", "b", "c", "d", "abcdefghijkl"]

/-- The spec's example finding. -/
def c2Finding : RawFinding :=
  ⟨5, 0, "convention", "missing-docstring", "Missing function docstring"⟩

/-- The diagnostic the spec's example expects. -/
def c2Diagnostic : Diagnostic :=
  { source := "pylint"
    range := { start := { line := 4, character := 0 }
               «end» := { line := 4, character := 12 } }
    message := "[missing-docstring] Missing function docstring"
    severity := DiagnosticSeverity.Information }

/-- A `refactor` finding for exercising the severity mapping. -/
def c3Finding : RawFinding := ⟨1, 2, "refactor", "r", "msg"⟩

/-- The diagnostic produced for `c3Finding` against the document
`["abcd"]`. -/
def c3Diagnostic : Diagnostic :=
  { source := "pylint"
    range := { start := { line := 0, character := 2 }
               «end» := { line := 0, character := 4 } }
    message := "[r] msg"
    severity := DiagnosticSeverity.Hint }

/-! ### Cache lemmas -/

theorem cacheFind_set_self (c : DiagnosticCache) (k : String)
    (v : List Diagnostic) : cacheFind (cacheSet c k v) k = some v := by
  induction c with
  | nil => simp [cacheSet, cacheFind]
  | cons hd tl ih =>
    obtain ⟨k0, v0⟩ := hd
    by_cases hk : k0 = k
    · simp [cacheSet, cacheFind, hk]
    · simp [cacheSet, cacheFind, hk, ih]

theorem cacheSet_set (c : DiagnosticCache) (k : String)
    (v w : List Diagnostic) : cacheSet (cacheSet c k v) k w = cacheSet c k w := by
  induction c with
  | nil => simp [cacheSet]
  | cons hd tl ih =>
    obtain ⟨k0, v0⟩ := hd
    by_cases hk : k0 = k
    · simp [cacheSet, hk]
    · simp [cacheSet, hk, ih]

theorem cacheFind_append_single (c : DiagnosticCache) (k q : String)
    (v : List Diagnostic) :
    cacheFind (c ++ [(k, v)]) q =
      match cacheFind c q with
      | some w => some w
      | none => if k = q then some v else none := by
  induction c with
  | nil => simp [cacheFind]
  | cons hd tl ih =>
    obtain ⟨k0, v0⟩ := hd
    by_cases hk : k0 = q
    · simp [cacheFind, hk]
    · simp [cacheFind, hk, ih]

/-! ### Python list-indexing lemmas -/

theorem pyGet_nil {α : Type} (i : Int) : pyGet ([] : List α) i = none := by
  unfold pyGet
  by_cases h : (0 : Int) ≤ i <;> simp [h]

theorem pyGet_nonneg {α : Type} (xs : List α) (i : Int) (h : 0 ≤ i) :
    pyGet xs i = xs.get? i.toNat := by
  simp [pyGet, h]

theorem pyGet_none_of_ge {α : Type} (xs : List α) (i : Int)
    (h : (xs.length : Int) ≤ i) : pyGet xs i = none := by
  have h0 : 0 ≤ i := le_trans (Int.natCast_nonneg _) h
  rw [pyGet_nonneg xs i h0]
  exact List.get?_eq_none.mpr (by omega)

theorem pyGet_neg_one {α : Type} (xs : List α) :
    pyGet xs (-1) = xs.getLast? := by
  cases xs with
  | nil => rfl
  | cons a l =>
    have h1 : ¬ (0 : Int) ≤ -1 := by decide
    have h2 : (0 : Int) ≤ ((a :: l).length : Int) + -1 := by
      simp only [List.length_cons]
      omega
    simp only [pyGet, if_neg h1, if_pos h2]
    have h3 : (((a :: l).length : Int) + -1).toNat = l.length := by
      simp only [List.length_cons]
      omega
    rw [h3, List.getLast?_eq_get?]
    simp [List.length_cons]

/-! ### Structure of the diagnostics built by the loop -/

theorem processFindings_ok_get (documentLines : List String)
    (findings : List RawFinding) :
    ∀ (prev : Option DiagnosticSeverity) (diags : List Diagnostic),
      processFindings documentLines prev findings = Except.ok diags →
      ∀ (i : Nat) (f : RawFinding) (d : Diagnostic),
        findings.get? i = some f → diags.get? i = some d →
        d.source = "pylint" ∧
        d.message = "[" ++ f.symbol ++ "] " ++ f.message ∧
        d.range.start.line = f.line - 1 ∧
        d.range.start.character = f.column ∧
        d.range.«end».line = f.line - 1 ∧
        ((documentLines = [] ∧ d.range.«end».character = 0) ∨
          (∃ s, pyGet documentLines (f.line - 1) = some s ∧
            d.range.«end».character = s.length)) ∧
        (∀ sev, severityFor f.type = some sev → d.severity = sev) := by
  induction findings with
  | nil =>
    intro prev diags h i f d hf hd
    simp at hf
  | cons g rest ih =>
    intro prev diags h i f d hf hd
    simp only [processFindings] at h
    cases hE : (if documentLines = [] then some 0
                else (pyGet documentLines (g.line - 1)).map String.length) with
    | none => rw [hE] at h; simp at h
    | some endCol =>
      rw [hE] at h
      simp only [] at h
      cases hS : resolveSeverity g.type prev with
      | none => rw [hS] at h; simp at h
      | some sev =>
        rw [hS] at h
        simp only [] at h
        cases hR : processFindings documentLines (some sev) rest with
        | error e => rw [hR] at h; simp at h
        | ok ds =>
          rw [hR] at h
          simp only [] at h
          injection h with h'
          subst h'
          cases i with
          | zero =>
            rw [List.get?_cons_zero] at hf hd
            injection hf with hf'
            injection hd with hd'
            subst hf'
            subst hd'
            refine ⟨rfl, rfl, rfl, rfl, rfl, ?_, ?_⟩
            · by_cases hL : documentLines = []
              · rw [if_pos hL] at hE
                injection hE with h0
                exact Or.inl ⟨hL, h0.symm⟩
              · rw [if_neg hL] at hE
                cases hP : pyGet documentLines (g.line - 1) with
                | none => rw [hP] at hE; simp at hE
                | some s =>
                  rw [hP] at hE
                  simp only [Option.map_some'] at hE
                  injection hE with h0
                  exact Or.inr ⟨s, rfl, h0.symm⟩
            · intro sev0 hsev
              unfold resolveSeverity at hS
              rw [hsev] at hS
              injection hS with h1
              exact h1.symm
          | succ j =>
            rw [List.get?_cons_succ] at hf hd
            exact ih (some sev) ds hR j f d hf hd

/-! ### Claim theorems -/

/-- Claim C1: for every `documentPath`, calling
`lint(documentPath, documentLines, isSaved=false)` returns the cached
sequence for that path (the empty sequence if the path has never been
linted) and does not invoke the external analyzer. -/
theorem c1_unsaved_returns_cached (cache : DiagnosticCache)
    (documentPath : String) (documentLines : List String) (isWindows : Bool)
    (analyzer : AnalyzerBehavior) :
    (lint cache documentPath documentLines false isWindows analyzer).result =
      Except.ok ((cacheFind cache documentPath).getD []) ∧
    (lint cache documentPath documentLines false isWindows
      analyzer).analyzerCalls = [] := by
  unfold lint cacheGetDefault
  cases h : cacheFind cache documentPath <;> simp [h]

/-- Claim C5: for every saved lint whose captured analyzer output buffer is
empty, `lint` sets the cache entry for `documentPath` to the empty sequence
and returns the empty sequence. -/
theorem c5_empty_buffer (cache : DiagnosticCache) (documentPath : String)
    (documentLines : List String) (isWindows : Bool) :
    (lint cache documentPath documentLines true isWindows
      (AnalyzerBehavior.output BufferContent.empty)).result = Except.ok [] ∧
    cacheFind (lint cache documentPath documentLines true isWindows
      (AnalyzerBehavior.output BufferContent.empty)).cache documentPath =
      some [] := by
  refine ⟨by simp [lint], ?_⟩
  simp only [lint]
  simp [cacheFind_set_self]

/-- Claim C8: for every saved lint where the external invocation fails to
launch, or the captured output is non-empty but malformed JSON, `lint`
fails; the failure propagates to the caller with no partial result, and the
cache is left unchanged. -/
theorem c8_failures_propagate (cache : DiagnosticCache)
    (documentPath : String) (documentLines : List String) (isWindows : Bool) :
    ((lint cache documentPath documentLines true isWindows
        AnalyzerBehavior.launchFailure).result =
      Except.error LintErr.launchFailure ∧
     (lint cache documentPath documentLines true isWindows
        AnalyzerBehavior.launchFailure).cache = cache) ∧
    ((lint cache documentPath documentLines true isWindows
        (AnalyzerBehavior.output BufferContent.malformed)).result =
      Except.error LintErr.jsonError ∧
     (lint cache documentPath documentLines true isWindows
        (AnalyzerBehavior.output BufferContent.malformed)).cache = cache) := by
  refine ⟨⟨?_, ?_⟩, ?_, ?_⟩ <;> simp [lint]

/-- Claim C9 counterexample: an unsaved lint of a never-linted path DOES
change the cache — the `defaultdict` read inserts an empty entry for the
path, so the claim that no entry is created on `isSaved=false` is false. -/
theorem c9_counterexample :
    (lint [] "a.py" [] false false
      (AnalyzerBehavior.output BufferContent.empty)).cache =
      [("a.py", [])] ∧
    ([("a.py", [])] : DiagnosticCache) ≠ ([] : DiagnosticCache) := by
  constructor
  · decide
  · decide

/-- Claim C9 (amended): for EVERY unsaved lint, the observed (defaulted)
value of every path is unchanged and every existing entry keeps its value;
the only mutation is that when `documentPath` has no entry, the
`defaultdict` read inserts an empty-sequence entry for it. -/
theorem c9_amended_unsaved_frame (cache : DiagnosticCache)
    (documentPath : String) (documentLines : List String) (isWindows : Bool)
    (analyzer : AnalyzerBehavior) (q r : String) (v : List Diagnostic) :
    (cacheFind (lint cache documentPath documentLines false isWindows
        analyzer).cache r).getD [] = (cacheFind cache r).getD [] ∧
    (cacheFind cache q = some v →
      cacheFind (lint cache documentPath documentLines false isWindows
        analyzer).cache q = some v) ∧
    (cacheFind cache documentPath = none →
      cacheFind (lint cache documentPath documentLines false isWindows
        analyzer).cache documentPath = some []) := by
  unfold lint cacheGetDefault
  cases hp : cacheFind cache documentPath with
  | some v0 =>
    exact ⟨by simp, fun hq => by simpa using hq,
           fun hcontra => Option.noConfusion hcontra⟩
  | none =>
    simp only [eq_self_iff_true, if_true]
    refine ⟨?_, ?_, ?_⟩
    · rw [cacheFind_append_single]
      cases h : cacheFind cache r with
      | some w => simp
      | none => by_cases hr : documentPath = r <;> simp [hr]
    · intro hq
      rw [cacheFind_append_single, hq]
    · intro _
      rw [cacheFind_append_single, hp]
      simp

/-- Claim C6: on a backslash-separator platform, a successful saved lint
invokes the analyzer with every backslash of `documentPath` replaced by a
forward slash, while the cache entry for the result is keyed by the
original, unnormalized `documentPath`. -/
theorem c6_windows_path_normalization (cache : DiagnosticCache)
    (documentPath : String) (documentLines : List String)
    (analyzer : AnalyzerBehavior) (diags : List Diagnostic)
    (h : (lint cache documentPath documentLines true true analyzer).result =
      Except.ok diags) :
    (lint cache documentPath documentLines true true analyzer).analyzerCalls =
      [⟨documentPath.data.map fun c => if c = '\\' then '/' else c⟩] ∧
    cacheFind (lint cache documentPath documentLines true true
      analyzer).cache documentPath = some diags := by
  cases analyzer with
  | launchFailure => simp [lint] at h
  | output buf =>
    cases buf with
    | empty =>
      simp [lint] at h
      subst h
      simp [lint, normalizeBackslashes, cacheFind_set_self]
    | malformed => simp [lint] at h
    | valid findings =>
      cases hp : processFindings documentLines none findings with
      | error e => simp [lint, hp] at h
      | ok ds =>
        simp [lint, hp] at h
        subst h
        simp [lint, hp, normalizeBackslashes, cacheFind_set_self]

/-- Witness for `c6_windows_path_normalization`: a saved lint of
`"C:\\d\\f.py"` with an empty analyzer buffer. -/
theorem c6_windows_path_normalization_witness :
    (lint [] "C:\\d\\f.py" [] true true
      (AnalyzerBehavior.output BufferContent.empty)).result =
      Except.ok [] ∧
    ((lint [] "C:\\d\\f.py" [] true true
        (AnalyzerBehavior.output BufferContent.empty)).analyzerCalls =
      [⟨"C:\\d\\f.py".data.map fun c => if c = '\\' then '/' else c⟩] ∧
     cacheFind (lint [] "C:\\d\\f.py" [] true true
        (AnalyzerBehavior.output BufferContent.empty)).cache "C:\\d\\f.py" =
      some []) :=
  ⟨by decide,
   c6_windows_path_normalization [] "C:\\d\\f.py" []
     (AnalyzerBehavior.output BufferContent.empty) [] (by decide)⟩

/-- Claim C7: two successive saved lints on an unchanged document with
unchanged analyzer output return identical sequences, and the second call
overwrites rather than appends to the cache entry: the second cache equals
the first and its entry for the path is exactly the second result. -/
theorem c7_relint_idempotent (cache : DiagnosticCache)
    (documentPath : String) (documentLines : List String) (isWindows : Bool)
    (analyzer : AnalyzerBehavior) (d1 : List Diagnostic)
    (h : (lint cache documentPath documentLines true isWindows
      analyzer).result = Except.ok d1) :
    (lint (lint cache documentPath documentLines true isWindows
        analyzer).cache documentPath documentLines true isWindows
        analyzer).result = Except.ok d1 ∧
    (lint (lint cache documentPath documentLines true isWindows
        analyzer).cache documentPath documentLines true isWindows
        analyzer).cache =
      (lint cache documentPath documentLines true isWindows analyzer).cache ∧
    cacheFind (lint (lint cache documentPath documentLines true isWindows
        analyzer).cache documentPath documentLines true isWindows
        analyzer).cache documentPath = some d1 := by
  cases analyzer with
  | launchFailure => simp [lint] at h
  | output buf =>
    cases buf with
    | empty =>
      simp [lint] at h
      subst h
      simp [lint, cacheSet_set, cacheFind_set_self]
    | malformed => simp [lint] at h
    | valid findings =>
      cases hp : processFindings documentLines none findings with
      | error e => simp [lint, hp] at h
      | ok ds =>
        simp [lint, hp] at h
        subst h
        simp [lint, hp, cacheSet_set, cacheFind_set_self]

/-- Witness for `c7_relint_idempotent`: relinting `"a.py"` with one `error`
finding. -/
theorem c7_relint_idempotent_witness :
    (lint [] "a.py" ["xy"] true false
      (AnalyzerBehavior.output (BufferContent.valid
        [⟨1, 0, "error", "e", "m"⟩]))).result =
      Except.ok
        [{ source := "pylint"
           range := { start := { line := 0, character := 0 }
                      «end» := { line := 0, character := 2 } }
           message := "[e] m"
           severity := DiagnosticSeverity.Error }] ∧
    ((lint (lint [] "a.py" ["xy"] true false
        (AnalyzerBehavior.output (BufferContent.valid
          [⟨1, 0, "error", "e", "m"⟩]))).cache "a.py" ["xy"] true false
        (AnalyzerBehavior.output (BufferContent.valid
          [⟨1, 0, "error", "e", "m"⟩]))).result =
      Except.ok
        [{ source := "pylint"
           range := { start := { line := 0, character := 0 }
                      «end» := { line := 0, character := 2 } }
           message := "[e] m"
           severity := DiagnosticSeverity.Error }] ∧
     (lint (lint [] "a.py" ["xy"] true false
        (AnalyzerBehavior.output (BufferContent.valid
          [⟨1, 0, "error", "e", "m"⟩]))).cache "a.py" ["xy"] true false
        (AnalyzerBehavior.output (BufferContent.valid
          [⟨1, 0, "error", "e", "m"⟩]))).cache =
      (lint [] "a.py" ["xy"] true false
        (AnalyzerBehavior.output (BufferContent.valid
          [⟨1, 0, "error", "e", "m"⟩]))).cache ∧
     cacheFind (lint (lint [] "a.py" ["xy"] true false
        (AnalyzerBehavior.output (BufferContent.valid
          [⟨1, 0, "error", "e", "m"⟩]))).cache "a.py" ["xy"] true false
        (AnalyzerBehavior.output (BufferContent.valid
          [⟨1, 0, "error", "e", "m"⟩]))).cache "a.py" =
      some
        [{ source := "pylint"
           range := { start := { line := 0, character := 0 }
                      «end» := { line := 0, character := 2 } }
           message := "[e] m"
           severity := DiagnosticSeverity.Error }]) :=
  ⟨by decide,
   c7_relint_idempotent [] "a.py" ["xy"] false
     (AnalyzerBehavior.output (BufferContent.valid
       [⟨1, 0, "error", "e", "m"⟩]))
     [{ source := "pylint"
        range := { start := { line := 0, character := 0 }
                   «end» := { line := 0, character := 2 } }
        message := "[e] m"
        severity := DiagnosticSeverity.Error }] (by decide)⟩

/-- Witness for `c9_amended_unsaved_frame` at a concrete cache with one
prior entry and a never-linted `documentPath`. -/
theorem c9_amended_unsaved_frame_witness :
    (cacheFind (lint [("b.py", [])] "a.py" [] false false
        (AnalyzerBehavior.output BufferContent.empty)).cache "c.py").getD [] =
      (cacheFind [("b.py", [])] "c.py").getD [] ∧
    (cacheFind [("b.py", [])] "b.py" = some [] →
      cacheFind (lint [("b.py", [])] "a.py" [] false false
        (AnalyzerBehavior.output BufferContent.empty)).cache "b.py" =
       some []) ∧
    (cacheFind [("b.py", [])] "a.py" = none →
      cacheFind (lint [("b.py", [])] "a.py" [] false false
        (AnalyzerBehavior.output BufferContent.empty)).cache "a.py" =
       some []) :=
  c9_amended_unsaved_frame [("b.py", [])] "a.py" [] false
    (AnalyzerBehavior.output BufferContent.empty) "b.py" "c.py" []

/-- Claim C2: for a saved lint, every returned Diagnostic built from a
parsed finding has `range.start.line = line - 1`, `range.start.character =
column`, `range.end.line = range.start.line`, `range.end.character` the
length of that line's text (0 when the document has no lines), message
`[<symbol>] <message>` and source `"pylint"`. -/
theorem c2_diag_fields (cache : DiagnosticCache) (documentPath : String)
    (documentLines : List String) (isWindows : Bool)
    (findings : List RawFinding) (diags : List Diagnostic)
    (h : (lint cache documentPath documentLines true isWindows
      (AnalyzerBehavior.output (BufferContent.valid findings))).result =
      Except.ok diags)
    (i : Nat) (f : RawFinding) (d : Diagnostic)
    (hf : findings.get? i = some f) (hd : diags.get? i = some d)
    (hline : documentLines = [] ∨
      (1 ≤ f.line ∧ f.line ≤ (documentLines.length : Int))) :
    d.range.start.line = f.line - 1 ∧
    d.range.start.character = f.column ∧
    d.range.«end».line = f.line - 1 ∧
    d.range.«end».character =
      ((documentLines.get? (f.line - 1).toNat).getD "").length ∧
    d.message = "[" ++ f.symbol ++ "] " ++ f.message ∧
    d.source = "pylint" := by
  have hp : processFindings documentLines none findings = Except.ok diags := by
    cases hp0 : processFindings documentLines none findings with
    | error e => simp [lint, hp0] at h
    | ok ds => simp [lint, hp0] at h; rw [h]
  obtain ⟨hsource, hmsg, hsl, hsc, hel, hec, _⟩ :=
    processFindings_ok_get documentLines findings none diags hp i f d hf hd
  refine ⟨hsl, hsc, hel, ?_, hmsg, hsource⟩
  rcases hec with ⟨hL, h0⟩ | ⟨s, hPs, hlen⟩
  · subst hL
    simp [h0]
  · rcases hline with hL | ⟨h1, h2⟩
    · subst hL
      rw [pyGet_nil] at hPs
      cases hPs
    · have h0 : (0 : Int) ≤ f.line - 1 := by omega
      rw [pyGet_nonneg _ _ h0] at hPs
      rw [hlen, hPs]
      rfl

/-- Witness for `c2_diag_fields`: the spec's own example — finding
`{line: 5, column: 0, type: convention, symbol: missing-docstring}` against
a document whose 0-indexed line 4 has length 12 yields exactly one
diagnostic, Information severity, range (4,0)-(4,12). -/
theorem c2_diag_fields_witness :
    (lint [] "foo.py" c2DocumentLines true false
      (AnalyzerBehavior.output (BufferContent.valid [c2Finding]))).result =
      Except.ok [c2Diagnostic] ∧
    [c2Finding].get? 0 = some c2Finding ∧
    [c2Diagnostic].get? 0 = some c2Diagnostic ∧
    (c2DocumentLines = [] ∨
      (1 ≤ c2Finding.line ∧
        c2Finding.line ≤ (c2DocumentLines.length : Int))) ∧
    (c2Diagnostic.range.start.line = c2Finding.line - 1 ∧
     c2Diagnostic.range.start.character = c2Finding.column ∧
     c2Diagnostic.range.«end».line = c2Finding.line - 1 ∧
     c2Diagnostic.range.«end».character =
       ((c2DocumentLines.get? (c2Finding.line - 1).toNat).getD "").length ∧
     c2Diagnostic.message =
       "[" ++ c2Finding.symbol ++ "] " ++ c2Finding.message ∧
     c2Diagnostic.source = "pylint") :=
  ⟨by decide, by decide, by decide, by decide,
   c2_diag_fields [] "foo.py" c2DocumentLines false [c2Finding]
     [c2Diagnostic] (by decide) 0 c2Finding c2Diagnostic (by decide)
     (by decide) (by decide)⟩

/-- Claim C3: for a saved lint, a parsed finding whose `type` is one of the
five recognized strings yields a diagnostic whose severity follows the
mapping convention→Information, error→Error, fatal→Error, refactor→Hint,
warning→Warning. -/
theorem c3_severity_mapping (cache : DiagnosticCache) (documentPath : String)
    (documentLines : List String) (isWindows : Bool)
    (findings : List RawFinding) (diags : List Diagnostic)
    (h : (lint cache documentPath documentLines true isWindows
      (AnalyzerBehavior.output (BufferContent.valid findings))).result =
      Except.ok diags)
    (i : Nat) (f : RawFinding) (d : Diagnostic)
    (hf : findings.get? i = some f) (hd : diags.get? i = some d) :
    (f.type = "convention" → d.severity = DiagnosticSeverity.Information) ∧
    (f.type = "error" → d.severity = DiagnosticSeverity.Error) ∧
    (f.type = "fatal" → d.severity = DiagnosticSeverity.Error) ∧
    (f.type = "refactor" → d.severity = DiagnosticSeverity.Hint) ∧
    (f.type = "warning" → d.severity = DiagnosticSeverity.Warning) := by
  have hp : processFindings documentLines none findings = Except.ok diags := by
    cases hp0 : processFindings documentLines none findings with
    | error e => simp [lint, hp0] at h
    | ok ds => simp [lint, hp0] at h; rw [h]
  obtain ⟨_, _, _, _, _, _, hsev⟩ :=
    processFindings_ok_get documentLines findings none diags hp i f d hf hd
  exact ⟨fun ht => hsev _ (by simp [severityFor, ht]),
         fun ht => hsev _ (by simp [severityFor, ht]),
         fun ht => hsev _ (by simp [severityFor, ht]),
         fun ht => hsev _ (by simp [severityFor, ht]),
         fun ht => hsev _ (by simp [severityFor, ht])⟩

/-- Witness for `c3_severity_mapping`: one `refactor` finding maps to Hint
severity. -/
theorem c3_severity_mapping_witness :
    (lint [] "b.py" ["abcd"] true false
      (AnalyzerBehavior.output (BufferContent.valid [c3Finding]))).result =
      Except.ok [c3Diagnostic] ∧
    [c3Finding].get? 0 = some c3Finding ∧
    [c3Diagnostic].get? 0 = some c3Diagnostic ∧
    ((c3Finding.type = "convention" →
        c3Diagnostic.severity = DiagnosticSeverity.Information) ∧
     (c3Finding.type = "error" →
        c3Diagnostic.severity = DiagnosticSeverity.Error) ∧
     (c3Finding.type = "fatal" →
        c3Diagnostic.severity = DiagnosticSeverity.Error) ∧
     (c3Finding.type = "refactor" →
        c3Diagnostic.severity = DiagnosticSeverity.Hint) ∧
     (c3Finding.type = "warning" →
        c3Diagnostic.severity = DiagnosticSeverity.Warning)) :=
  ⟨by decide, by decide, by decide,
   c3_severity_mapping [] "b.py" ["abcd"] false [c3Finding] [c3Diagnostic]
     (by decide) 0 c3Finding c3Diagnostic (by decide) (by decide)⟩

/-- Claim C4 (code bug evidence): the severity `if`/`elif` chain has no
`else` branch.  An unrecognized finding type silently reuses the previous
finding's severity — here the second diagnostic inherits `Warning` from the
first — and on the very first finding the unbound variable raises
`NameError`.  No explicit default is ever supplied. -/
theorem c4_unrecognized_type_stale_severity :
    severityFor "undefined-kind" = none ∧
    (lint [] "f.py" ["x"] true false
      (AnalyzerBehavior.output (BufferContent.valid
        [⟨1, 0, "warning", "w", "m1"⟩,
         ⟨1, 0, "undefined-kind", "u", "m2"⟩]))).result =
      Except.ok
        [{ source := "pylint"
           range := { start := { line := 0, character := 0 }
                      «end» := { line := 0, character := 1 } }
           message := "[w] m1"
           severity := DiagnosticSeverity.Warning },
         { source := "pylint"
           range := { start := { line := 0, character := 0 }
                      «end» := { line := 0, character := 1 } }
           message := "[u] m2"
           severity := DiagnosticSeverity.Warning }] ∧
    (lint [] "f.py" ["x"] true false
      (AnalyzerBehavior.output (BufferContent.valid
        [⟨1, 0, "undefined-kind", "u", "m2"⟩]))).result =
      Except.error (LintErr.pyErr PyErr.nameError) :=
  ⟨by decide, by decide, by decide⟩

theorem processFindings_error_of_mem (documentLines : List String)
    (f : RawFinding) (hne : documentLines ≠ [])
    (hf : pyGet documentLines (f.line - 1) = none) :
    ∀ (findings : List RawFinding) (prev : Option DiagnosticSeverity),
      f ∈ findings →
      ∃ e, processFindings documentLines prev findings = Except.error e := by
  intro findings
  induction findings with
  | nil => intro prev hmem; simp at hmem
  | cons g rest ih =>
    intro prev hmem
    rcases List.mem_cons.mp hmem with rfl | hmem'
    · exact ⟨PyErr.indexError,
        by simp only [processFindings, if_neg hne, hf, Option.map_none']⟩
    · cases hE : (if documentLines = [] then some 0
                  else (pyGet documentLines (g.line - 1)).map String.length) with
      | none => exact ⟨PyErr.indexError, by simp only [processFindings, hE]⟩
      | some endCol =>
        cases hS : resolveSeverity g.type prev with
        | none =>
          exact ⟨PyErr.nameError, by simp only [processFindings, hE, hS]⟩
        | some sev =>
          obtain ⟨e, he⟩ := ih (some sev) hmem'
          exact ⟨e, by simp only [processFindings, hE, hS, he]⟩

/-- Claim C10: `range.end.character` indexes `documentLines` at
`RawFinding.line - 1` without a bounds guard.  With a non-empty document:
a finding whose `line` exceeds the line count makes `lint` fail with an
index error instead of returning a sequence, and a finding with `line = 0`
indexes at `-1`, Python-selecting the length of the document's LAST line. -/
theorem c10_no_bounds_guard (cache : DiagnosticCache) (documentPath : String)
    (documentLines : List String) (isWindows : Bool)
    (findings : List RawFinding) (f g : RawFinding)
    (hne : documentLines ≠ []) (hmem : f ∈ findings)
    (hgt : (documentLines.length : Int) < f.line) (hg0 : g.line = 0)
    (s : DiagnosticSeverity) (hs : severityFor g.type = some s) :
    (∃ e, (lint cache documentPath documentLines true isWindows
      (AnalyzerBehavior.output (BufferContent.valid findings))).result =
      Except.error e) ∧
    (lint cache documentPath documentLines true isWindows
      (AnalyzerBehavior.output (BufferContent.valid [f]))).result =
      Except.error (LintErr.pyErr PyErr.indexError) ∧
    (∃ t, documentLines.getLast? = some t ∧
      (lint cache documentPath documentLines true isWindows
        (AnalyzerBehavior.output (BufferContent.valid [g]))).result =
      Except.ok
        [{ source := "pylint"
           range := { start := { line := -1, character := g.column }
                      «end» := { line := -1, character := t.length } }
           message := "[" ++ g.symbol ++ "] " ++ g.message
           severity := s }]) := by
  have hf0 : pyGet documentLines (f.line - 1) = none :=
    pyGet_none_of_ge _ _ (by omega)
  refine ⟨?_, ?_, ?_⟩
  · obtain ⟨e, he⟩ :=
      processFindings_error_of_mem documentLines f hne hf0 findings none hmem
    exact ⟨LintErr.pyErr e, by simp [lint, he]⟩
  · have h1 : processFindings documentLines none [f] =
        Except.error PyErr.indexError := by
      simp only [processFindings, if_neg hne, hf0, Option.map_none']
    simp [lint, h1]
  · obtain ⟨t, ht⟩ : ∃ t, documentLines.getLast? = some t := by
      cases hL : documentLines.getLast? with
      | some t => exact ⟨t, rfl⟩
      | none => exact absurd (List.getLast?_eq_none.mp hL) hne
    have hgl : g.line - 1 = -1 := by omega
    have hpg : pyGet documentLines (-1) = some t := by
      rw [pyGet_neg_one, ht]
    have hres : resolveSeverity g.type none = some s := by
      simp [resolveSeverity, hs]
    have h2 : processFindings documentLines none [g] =
        Except.ok
          [{ source := "pylint"
             range := { start := { line := -1, character := g.column }
                        «end» := { line := -1, character := t.length } }
             message := "[" ++ g.symbol ++ "] " ++ g.message
             severity := s }] := by
      simp only [processFindings, if_neg hne, hpg, Option.map_some', hres,
        hgl]
    exact ⟨t, ht, by simp [lint, h2]⟩

/-- Witness for `c10_no_bounds_guard`: document `["ab", "cde"]`, an
out-of-range finding at line 5 and a line-0 finding whose end character
becomes the length of the last line. -/
theorem c10_no_bounds_guard_witness :
    (["ab", "cde"] : List String) ≠ [] ∧
    (⟨5, 0, "error", "x", "m"⟩ : RawFinding) ∈
      [(⟨5, 0, "error", "x", "m"⟩ : RawFinding)] ∧
    ((["ab", "cde"] : List String).length : Int) <
      (⟨5, 0, "error", "x", "m"⟩ : RawFinding).line ∧
    (⟨0, 1, "warning", "y", "n"⟩ : RawFinding).line = 0 ∧
    severityFor (⟨0, 1, "warning", "y", "n"⟩ : RawFinding).type =
      some DiagnosticSeverity.Warning ∧
    ((∃ e, (lint [] "w.py" ["ab", "cde"] true false
        (AnalyzerBehavior.output (BufferContent.valid
          [⟨5, 0, "error", "x", "m"⟩]))).result = Except.error e) ∧
     (lint [] "w.py" ["ab", "cde"] true false
        (AnalyzerBehavior.output (BufferContent.valid
          [⟨5, 0, "error", "x", "m"⟩]))).result =
       Except.error (LintErr.pyErr PyErr.indexError) ∧
     (∃ t, (["ab", "cde"] : List String).getLast? = some t ∧
       (lint [] "w.py" ["ab", "cde"] true false
          (AnalyzerBehavior.output (BufferContent.valid
            [⟨0, 1, "warning", "y", "n"⟩]))).result =
       Except.ok
         [{ source := "pylint"
            range := { start := { line := -1, character := 1 }
                       «end» := { line := -1, character := t.length } }
            message := "[y] n"
            severity := DiagnosticSeverity.Warning }])) :=
  ⟨by decide, by decide, by decide, by decide, by decide,
   c10_no_bounds_guard [] "w.py" ["ab", "cde"] false
     [⟨5, 0, "error", "x", "m"⟩] ⟨5, 0, "error", "x", "m"⟩
     ⟨0, 1, "warning", "y", "n"⟩ (by decide) (by decide) (by decide)
     (by decide) DiagnosticSeverity.Warning (by decide)⟩
